import Mathlib

/-!
Verification development for the bodyshop slicing service
(`app.py` + `slice_obj.py`).

The geometric core (`calculate_plane_normal`, `calculate_camera_up_vector`)
is embedded over the real numbers, mirroring the numpy formulas of the
source.  The effectful parts (mesh reading via PyVista, slicing, off-screen
rendering, the random fallback id, filesystem existence checks) are modelled
by an explicit environment record `Env` of abstract outcome functions; the
control flow of `create_slice_image_pyvista`, `process_locators_for_obj`
and the `/slice` request handler is translated branch for branch.
-/

/-- A 3-component real vector, standing for a numpy array of three floats. -/
structure Vec3 where
  x : ℝ
  y : ℝ
  z : ℝ

/-- Dot product of two vectors. -/
noncomputable def dot (a b : Vec3) : ℝ :=
  a.x * b.x + a.y * b.y + a.z * b.z

/-- Euclidean norm, as `np.linalg.norm`. -/
noncomputable def vnorm (v : Vec3) : ℝ :=
  Real.sqrt (v.x * v.x + v.y * v.y + v.z * v.z)

/-- Componentwise division of a vector by a scalar. -/
noncomputable def vdiv (v : Vec3) (s : ℝ) : Vec3 :=
  ⟨v.x / s, v.y / s, v.z / s⟩

/-- Cross product, as `np.cross`. -/
noncomputable def cross (a b : Vec3) : Vec3 :=
  ⟨a.y * b.z - a.z * b.y, a.z * b.x - a.x * b.z, a.x * b.y - a.y * b.x⟩

/-- A 3x3 matrix given by rows, as the `np.array` literals of the source. -/
structure Mat3 where
  r1 : Vec3
  r2 : Vec3
  r3 : Vec3

/-- Matrix-vector product (`@` in the source). -/
noncomputable def matVec (m : Mat3) (v : Vec3) : Vec3 :=
  ⟨dot m.r1 v, dot m.r2 v, dot m.r3 v⟩

/-- `np.deg2rad`. -/
noncomputable def deg2rad (d : ℝ) : ℝ :=
  d * Real.pi / 180

/-- The Y-axis rotation matrix `rot_mat_y` built in `calculate_plane_normal`. -/
noncomputable def rot_mat_y (θ : ℝ) : Mat3 :=
  ⟨⟨Real.cos θ, 0, Real.sin θ⟩,
   ⟨0, 1, 0⟩,
   ⟨-Real.sin θ, 0, Real.cos θ⟩⟩

/-- The X-axis rotation matrix `rot_mat_x` built in `calculate_plane_normal`. -/
noncomputable def rot_mat_x (θ : ℝ) : Mat3 :=
  ⟨⟨1, 0, 0⟩,
   ⟨0, Real.cos θ, -Real.sin θ⟩,
   ⟨0, Real.sin θ, Real.cos θ⟩⟩

/-- The vector `normal_vec` after both rotations in `calculate_plane_normal`:
the base normal `(0,0,1)` rotated about Y by `ry_deg`, then about X by
`rx_deg`. -/
noncomputable def rotated_normal_vec (rx_deg ry_deg : ℝ) : Vec3 :=
  matVec (rot_mat_x (deg2rad rx_deg)) (matVec (rot_mat_y (deg2rad ry_deg)) ⟨0, 0, 1⟩)

/-- The final statement of `calculate_plane_normal`:
`normal_vec / norm if norm > 0 else np.array([0.0, 0.0, 1.0])`. -/
noncomputable def normalizeOrFallback (v : Vec3) : Vec3 :=
  if vnorm v > 0 then vdiv v (vnorm v) else ⟨0, 0, 1⟩

/-- `calculate_plane_normal(rx_deg, ry_deg, rz_deg)` from `slice_obj.py`.
The body never mentions `rz_deg`. -/
noncomputable def calculate_plane_normal (rx_deg ry_deg rz_deg : ℝ) : Vec3 :=
  normalizeOrFallback (rotated_normal_vec rx_deg ry_deg)

/-- Modelled from the spec: the same computation with the rotation order
swapped (X applied to the base normal first, then Y), used only to state
the non-commutativity property. -/
noncomputable def calculate_plane_normal_swapped_order (rx_deg ry_deg rz_deg : ℝ) : Vec3 :=
  normalizeOrFallback (matVec (rot_mat_y (deg2rad ry_deg)) (matVec (rot_mat_x (deg2rad rx_deg)) ⟨0, 0, 1⟩))

/-- `np.allclose` default absolute tolerance. -/
noncomputable def np_atol : ℝ := 1 / 100000000

/-- `np.allclose` default relative tolerance. -/
noncomputable def np_rtol : ℝ := 1 / 100000

/-- `np.allclose(a, b)` with default tolerances:
componentwise `|a - b| <= atol + rtol * |b|`. -/
noncomputable def np_allclose (a b : Vec3) : Prop :=
  |a.x - b.x| ≤ np_atol + np_rtol * |b.x| ∧
  |a.y - b.y| ≤ np_atol + np_rtol * |b.y| ∧
  |a.z - b.z| ≤ np_atol + np_rtol * |b.z|

noncomputable instance (a b : Vec3) : Decidable (np_allclose a b) := by
  unfold np_allclose
  infer_instance

/-- `calculate_camera_up_vector(plane_normal)` from `slice_obj.py`. -/
noncomputable def calculate_camera_up_vector (plane_normal : Vec3) : Vec3 :=
  if np_allclose plane_normal ⟨0, 0, 1⟩ ∨ np_allclose plane_normal ⟨0, 0, -1⟩ then
    ⟨0, 1, 0⟩
  else if np_allclose plane_normal ⟨0, 1, 0⟩ ∨ np_allclose plane_normal ⟨0, -1, 0⟩ then
    ⟨0, 0, 1⟩
  else
    let up := cross plane_normal ⟨0, 0, 1⟩
    let up2 := if vnorm up < 1 / 1000000 then (⟨0, 1, 0⟩ : Vec3) else up
    vdiv up2 (vnorm up2)

/-- Modelled from the spec: the up-vector contract as worded in §4.1, with
"parallel to" an axis read as numpy closeness to the two unit vectors of
that axis (the tolerance semantics the source uses). -/
noncomputable def compute_up_vector_spec (normal : Vec3) : Vec3 :=
  if np_allclose normal ⟨0, 0, 1⟩ ∨ np_allclose normal ⟨0, 0, -1⟩ then
    ⟨0, 1, 0⟩
  else if np_allclose normal ⟨0, 1, 0⟩ ∨ np_allclose normal ⟨0, -1, 0⟩ then
    ⟨0, 0, 1⟩
  else if vnorm (cross normal ⟨0, 0, 1⟩) < 1 / 1000000 then
    ⟨0, 1, 0⟩
  else
    vdiv (cross normal ⟨0, 0, 1⟩) (vnorm (cross normal ⟨0, 0, 1⟩))

/-- A loaded PyVista mesh, observed through its point count (`n_points`). -/
structure Mesh where
  n_points : ℕ

/-- The external world of `slice_obj.py`: outcomes of the PyVista calls and
of `np.random.randint`.  `readMesh` models the robust read of the OBJ file
through a temporary file plus `pv.read` (an exception yields `.error`);
`slice` models `mesh.slice(normal, origin)`, returning the point count of
the resulting polydata or an exception; `render` models the whole plotting
and `screenshot` sequence (camera set from origin, normal, radius and the
computed up vector); `randInt k` is the value drawn by the k-th call of
`np.random.randint(1000)` in a batch. -/
structure Env where
  readMesh : String → Except String Mesh
  slice : Mesh → Vec3 → Vec3 → Except String ℕ
  render : Vec3 → Vec3 → ℝ → Vec3 → Except String Unit
  randInt : ℕ → ℕ

/-- `os.path.join(a, b)` for two POSIX path components. -/
def joinPath (a b : String) : String :=
  if b.startsWith "/" then b
  else if a = "" then b
  else if a.endsWith "/" then a ++ b
  else a ++ "/" ++ b

/-- `create_slice_image_pyvista` from `slice_obj.py`.  The first component
is the returned boolean; the second records the path of the screenshot
file written by the call, if any (the source writes a file only on the
full rendering branch). -/
noncomputable def create_slice_image_pyvista (env : Env) (obj_file_path : String)
    (plane_origin plane_normal : Vec3) (locator_id : String) (radius : ℝ)
    (output_dir : String) : Bool × Option String :=
  match env.readMesh obj_file_path with
  | .error _ => (false, none)
  | .ok mesh_pv =>
    if mesh_pv.n_points = 0 then (false, none)
    else
      match env.slice mesh_pv plane_normal plane_origin with
      | .error _ => (false, none)
      | .ok slicePoints =>
        if slicePoints = 0 then (true, none)
        else
          match env.render plane_origin plane_normal radius
              (calculate_camera_up_vector plane_normal) with
          | .error _ => (false, none)
          | .ok _ => (true, some (joinPath output_dir (locator_id ++ ".png")))

/-- One locator record of the request body; absent JSON fields are `none`
(the source reads each with `loc_data.get(key, default)`). -/
structure Locator where
  id : Option String := none
  x : Option ℝ := none
  y : Option ℝ := none
  z : Option ℝ := none
  rx : Option ℝ := none
  ry : Option ℝ := none
  rz : Option ℝ := none

/-- One entry of the `results` list of `process_locators_for_obj`: the
source appends a dict with keys `id`, `status` and either `image_path`
(success) or `message` (error). -/
structure SliceResult where
  id : String
  status : String
  image_path : Option String
  message : Option String
deriving DecidableEq

/-- Placeholder used only to state indexed lookups with `List.getD`. -/
def defaultSliceResult : SliceResult :=
  ⟨"", "", none, none⟩

/-- Placeholder used only to state indexed lookups with `List.getD`. -/
def defaultLocator : Locator := {}

/-- The body of the `for loc_data in locators_data_list` loop of
`process_locators_for_obj`, for the locator at position `k` (the position
fixes which draw of `np.random.randint` feeds the fallback id). -/
noncomputable def processOne (env : Env) (obj_file_path output_dir : String)
    (k : ℕ) (loc_data : Locator) : SliceResult :=
  let locator_id := loc_data.id.getD ("unknown_loc_" ++ toString (env.randInt k % 1000))
  let plane_origin : Vec3 := ⟨loc_data.x.getD 0, loc_data.y.getD 0, loc_data.z.getD 0⟩
  let plane_normal := calculate_plane_normal (loc_data.rx.getD 0) (loc_data.ry.getD 0)
    (loc_data.rz.getD 0)
  let slice_radius : ℝ := 200
  if (create_slice_image_pyvista env obj_file_path plane_origin plane_normal locator_id
      slice_radius output_dir).1 then
    { id := locator_id, status := "success",
      image_path := some (joinPath output_dir (locator_id ++ ".png")), message := none }
  else
    { id := locator_id, status := "error", image_path := none,
      message := some ("Failed to create slice image for " ++ locator_id ++ " using PyVista") }

/-- The accumulation of `results` over the loop, starting at position `k`. -/
noncomputable def processLoop (env : Env) (obj_file_path output_dir : String) :
    ℕ → List Locator → List SliceResult
  | _, [] => []
  | k, loc :: rest =>
    processOne env obj_file_path output_dir k loc ::
      processLoop env obj_file_path output_dir (k + 1) rest

/-- `process_locators_for_obj` from `slice_obj.py`: builds the per-locator
results list and returns `True, results` unconditionally. -/
noncomputable def process_locators_for_obj (env : Env) (obj_file_path : String)
    (locators_data_list : List Locator) (output_dir : String) :
    Bool × List SliceResult :=
  (true, processLoop env obj_file_path output_dir 0 locators_data_list)

/-- `os.path.isabs` on POSIX: the path starts with the separator. -/
def isabs (p : String) : Bool :=
  match p.data with
  | [] => false
  | c :: _ => c == (Char.ofNat 47)

/-- The parsed JSON body of a `/slice` request; each top-level field is
`none` when absent (`data.get(...)` returns `None`). -/
structure SliceRequest where
  obj_file_path : Option String
  locators : Option (List Locator)

/-- Observable outcome of one `/slice` request: the HTTP status code,
whether `os.makedirs` was called on the output image directory, and the
batch results list when `process_locators_for_obj` was invoked. -/
structure HandlerResponse where
  status : ℕ
  madeOutputDir : Bool
  sliceResults : Option (List SliceResult)
deriving DecidableEq

/-- The path resolution steps of the handler (`app.py` lines 29-45): an
absolute input is used if it exists; a relative input is tried first
relative to the base directory, then relative to its `data` subdirectory;
`none` means resolution failed (the 404 case). -/
def resolvePath (pathExists : String → Bool) (baseDir objIn : String) : Option String :=
  if ¬ isabs objIn then
    if pathExists (joinPath baseDir objIn) then some (joinPath baseDir objIn)
    else if pathExists (joinPath (joinPath baseDir "data") objIn) then
      some (joinPath (joinPath baseDir "data") objIn)
    else none
  else
    if pathExists objIn then some objIn else none

/-- `slice_model_endpoint` from `app.py`.  `pathExists` models
`os.path.exists`; `baseDir` is `os.path.dirname(__file__)`; the request
body is `none` when `request.get_json()` yields no data. -/
noncomputable def slice_model_endpoint (env : Env) (pathExists : String → Bool)
    (baseDir : String) (data : Option SliceRequest) : HandlerResponse :=
  match data with
  | none => ⟨400, false, none⟩
  | some d =>
    match d.obj_file_path, d.locators with
    | some objIn, some locs =>
      if objIn = "" ∨ locs.isEmpty then ⟨400, false, none⟩
      else
        match resolvePath pathExists baseDir objIn with
        | none => ⟨404, false, none⟩
        | some obj_file_path_actual =>
          let output_image_dir := joinPath (joinPath baseDir "data") "generated_slices"
          let res := process_locators_for_obj env obj_file_path_actual locs output_image_dir
          if res.1 then ⟨200, true, some res.2⟩
          else ⟨500, true, some res.2⟩
    | _, _ => ⟨400, false, none⟩

/-- The failure of all three path resolution rules of the handler:
not an existing absolute path, not existing relative to the base
directory, not existing relative to the `data` subdirectory. -/
def unresolvable (pathExists : String → Bool) (baseDir objIn : String) : Prop :=
  (isabs objIn = true ∧ pathExists objIn = false) ∨
  (isabs objIn = false ∧ pathExists (joinPath baseDir objIn) = false ∧
    pathExists (joinPath (joinPath baseDir "data") objIn) = false)

/-- A concrete environment in which every mesh reads back with 8 points and
every slice is empty. -/
def envEmptySlice : Env :=
  { readMesh := fun _ => .ok ⟨8⟩
    slice := fun _ _ _ => .ok 0
    render := fun _ _ _ _ => .ok ()
    randInt := fun _ => 0 }

/-- A concrete environment in which every mesh read fails. -/
def envReadFail : Env :=
  { readMesh := fun _ => .error "read failure"
    slice := fun _ _ _ => .error "unused"
    render := fun _ _ _ _ => .error "unused"
    randInt := fun _ => 0 }

/-- A concrete environment in which reading, slicing and rendering all
succeed, with a non-empty cross-section. -/
def envRenderOk : Env :=
  { readMesh := fun _ => .ok ⟨8⟩
    slice := fun _ _ _ => .ok 42
    render := fun _ _ _ _ => .ok ()
    randInt := fun _ => 7 }

/-- A concrete locator with an explicit id and no other fields. -/
def loc0 : Locator :=
  { id := some "L" }

/-- A filesystem on which no path exists. -/
def noPath : String → Bool :=
  fun _ => false

theorem vnorm_mk (a b c : ℝ) : vnorm ⟨a, b, c⟩ = Real.sqrt (a * a + b * b + c * c) :=
  rfl

theorem vnorm_x_unit : vnorm ⟨1, 0, 0⟩ = 1 := by
  rw [vnorm_mk]
  norm_num

theorem vnorm_y_unit : vnorm ⟨0, 1, 0⟩ = 1 := by
  rw [vnorm_mk]
  norm_num

theorem vnorm_neg_y_unit : vnorm ⟨0, -1, 0⟩ = 1 := by
  rw [vnorm_mk]
  norm_num

theorem vnorm_z_unit : vnorm ⟨0, 0, 1⟩ = 1 := by
  rw [vnorm_mk]
  norm_num

theorem rotated_normal_vec_eq (rx_deg ry_deg : ℝ) :
    rotated_normal_vec rx_deg ry_deg =
      ⟨Real.sin (deg2rad ry_deg),
       -(Real.sin (deg2rad rx_deg) * Real.cos (deg2rad ry_deg)),
       Real.cos (deg2rad rx_deg) * Real.cos (deg2rad ry_deg)⟩ := by
  simp only [rotated_normal_vec, matVec, dot, rot_mat_x, rot_mat_y, Vec3.mk.injEq]
  refine ⟨by ring, by ring, by ring⟩

theorem vnorm_rotated_normal_vec (rx_deg ry_deg : ℝ) :
    vnorm (rotated_normal_vec rx_deg ry_deg) = 1 := by
  rw [rotated_normal_vec_eq, vnorm_mk]
  have h1 := Real.sin_sq_add_cos_sq (deg2rad rx_deg)
  have h2 := Real.sin_sq_add_cos_sq (deg2rad ry_deg)
  have key : Real.sin (deg2rad ry_deg) * Real.sin (deg2rad ry_deg) +
      -(Real.sin (deg2rad rx_deg) * Real.cos (deg2rad ry_deg)) *
        -(Real.sin (deg2rad rx_deg) * Real.cos (deg2rad ry_deg)) +
      Real.cos (deg2rad rx_deg) * Real.cos (deg2rad ry_deg) *
        (Real.cos (deg2rad rx_deg) * Real.cos (deg2rad ry_deg)) = 1 := by
    linear_combination Real.cos (deg2rad ry_deg) ^ 2 * h1 + h2
  rw [key, Real.sqrt_one]

theorem normalizeOrFallback_of_unit (v : Vec3) (h : vnorm v = 1) :
    normalizeOrFallback v = v := by
  unfold normalizeOrFallback
  rw [h, if_pos one_pos]
  cases v
  simp [vdiv]

theorem deg2rad_zero : deg2rad 0 = 0 := by
  simp [deg2rad]

theorem deg2rad_ninety : deg2rad 90 = Real.pi / 2 := by
  unfold deg2rad
  ring

/-- C4: for every angle triple, `calculate_plane_normal` ignores the `rz`
argument, and at `rx = ry = 0` it returns exactly `(0, 0, 1)` for every
`rz`. -/
theorem rz_has_no_effect_on_normal :
    (∀ rx ry rz : ℝ, calculate_plane_normal rx ry rz = calculate_plane_normal rx ry 0) ∧
    (∀ rz : ℝ, calculate_plane_normal 0 0 rz = ⟨0, 0, 1⟩) := by
  constructor
  · intro rx ry rz
    rfl
  · intro rz
    unfold calculate_plane_normal
    have h : rotated_normal_vec 0 0 = ⟨0, 0, 1⟩ := by
      rw [rotated_normal_vec_eq, deg2rad_zero]
      simp
    rw [h]
    exact normalizeOrFallback_of_unit _ vnorm_z_unit

/-- C6: for all `rx`, `ry` (with `rz = 0`), the returned normal has unit
magnitude, and the normalization step of `calculate_plane_normal` falls
back to `(0, 0, 1)` whenever the rotated vector has zero magnitude. -/
theorem plane_normal_unit_magnitude :
    (∀ rx ry : ℝ, vnorm (calculate_plane_normal rx ry 0) = 1) ∧
    (∀ v : Vec3, vnorm v = 0 → normalizeOrFallback v = ⟨0, 0, 1⟩) := by
  constructor
  · intro rx ry
    unfold calculate_plane_normal
    rw [normalizeOrFallback_of_unit _ (vnorm_rotated_normal_vec rx ry)]
    exact vnorm_rotated_normal_vec rx ry
  · intro v h
    unfold normalizeOrFallback
    rw [h, if_neg (lt_irrefl (0 : ℝ))]

theorem plane_normal_unit_magnitude_witness :
    vnorm ⟨0, 0, 0⟩ = 0 ∧ normalizeOrFallback ⟨0, 0, 0⟩ = ⟨0, 0, 1⟩ := by
  have h : vnorm (⟨0, 0, 0⟩ : Vec3) = 0 := by
    rw [vnorm_mk]
    simp
  exact ⟨h, plane_normal_unit_magnitude.2 _ h⟩

/-- C5: the source applies the Y rotation first and then the X rotation;
at `(rx, ry, rz) = (90, 90, 0)` this yields `(1, 0, 0)`, while applying X
first and then Y yields `(0, -1, 0)`, so the two orders disagree. -/
theorem rotation_order_y_then_x :
    calculate_plane_normal 90 90 0 = ⟨1, 0, 0⟩ ∧
    calculate_plane_normal_swapped_order 90 90 0 = ⟨0, -1, 0⟩ ∧
    calculate_plane_normal 90 90 0 ≠ calculate_plane_normal_swapped_order 90 90 0 := by
  have hsin : Real.sin (deg2rad 90) = 1 := by
    rw [deg2rad_ninety]
    exact Real.sin_pi_div_two
  have hcos : Real.cos (deg2rad 90) = 0 := by
    rw [deg2rad_ninety]
    exact Real.cos_pi_div_two
  have h1 : calculate_plane_normal 90 90 0 = ⟨1, 0, 0⟩ := by
    unfold calculate_plane_normal
    rw [rotated_normal_vec_eq, hsin, hcos]
    norm_num
    exact normalizeOrFallback_of_unit _ vnorm_x_unit
  have h2 : calculate_plane_normal_swapped_order 90 90 0 = ⟨0, -1, 0⟩ := by
    unfold calculate_plane_normal_swapped_order
    simp only [matVec, dot, rot_mat_x, rot_mat_y]
    rw [hsin, hcos]
    norm_num
    exact normalizeOrFallback_of_unit _ vnorm_neg_y_unit
  refine ⟨h1, h2, ?_⟩
  rw [h1, h2]
  intro hcontra
  have hx := congrArg Vec3.x hcontra
  norm_num at hx

theorem np_allclose_refl (v : Vec3) : np_allclose v v := by
  unfold np_allclose np_atol np_rtol
  refine ⟨?_, ?_, ?_⟩ <;> (rw [sub_self, abs_zero]; positivity)

/-- C7: `calculate_camera_up_vector` agrees with the up-vector contract of
the spec (axis-parallelism read as numpy closeness, with the near-zero
cross product falling back to `(0, 1, 0)`), and in particular maps
`(0, 0, 1)` to `(0, 1, 0)` and `(0, 1, 0)` to `(0, 0, 1)`. -/
theorem camera_up_vector_contract :
    (∀ n : Vec3, calculate_camera_up_vector n = compute_up_vector_spec n) ∧
    calculate_camera_up_vector ⟨0, 0, 1⟩ = ⟨0, 1, 0⟩ ∧
    calculate_camera_up_vector ⟨0, 1, 0⟩ = ⟨0, 0, 1⟩ := by
  refine ⟨?_, ?_, ?_⟩
  · intro n
    unfold calculate_camera_up_vector compute_up_vector_spec
    dsimp only
    split_ifs with h1 h2 h3
    · rfl
    · rfl
    · rw [vnorm_y_unit]
      simp [vdiv]
    · rfl
  · unfold calculate_camera_up_vector
    rw [if_pos (Or.inl (np_allclose_refl ⟨0, 0, 1⟩))]
  · have hnot : ¬(np_allclose ⟨0, 1, 0⟩ ⟨0, 0, 1⟩ ∨ np_allclose ⟨0, 1, 0⟩ ⟨0, 0, -1⟩) := by
      rintro (h | h) <;>
        · obtain ⟨-, hy, -⟩ := h
          simp [np_atol, np_rtol] at hy
          norm_num at hy
    unfold calculate_camera_up_vector
    rw [if_neg hnot, if_pos (Or.inl (np_allclose_refl ⟨0, 1, 0⟩))]

theorem processOne_id (env : Env) (obj outdir : String) (k : ℕ) (loc : Locator) :
    (processOne env obj outdir k loc).id =
      loc.id.getD ("unknown_loc_" ++ toString (env.randInt k % 1000)) := by
  unfold processOne
  dsimp only
  split <;> rfl

theorem processOne_cases (env : Env) (obj outdir : String) (k : ℕ) (loc : Locator) :
    (∃ lid, processOne env obj outdir k loc =
      { id := lid, status := "success",
        image_path := some (joinPath outdir (lid ++ ".png")), message := none }) ∨
    (∃ lid, processOne env obj outdir k loc =
      { id := lid, status := "error", image_path := none,
        message := some ("Failed to create slice image for " ++ lid ++ " using PyVista") }) := by
  unfold processOne
  dsimp only
  split
  · exact Or.inl ⟨_, rfl⟩
  · exact Or.inr ⟨_, rfl⟩

theorem processLoop_length (env : Env) (obj outdir : String) :
    ∀ (locs : List Locator) (k : ℕ),
      (processLoop env obj outdir k locs).length = locs.length := by
  intro locs
  induction locs with
  | nil => intro k; rfl
  | cons a t ih =>
    intro k
    simp only [processLoop, List.length_cons, ih]

theorem processLoop_getD (env : Env) (obj outdir : String) :
    ∀ (locs : List Locator) (k j : ℕ), j < locs.length →
      (processLoop env obj outdir k locs).getD j defaultSliceResult =
        processOne env obj outdir (k + j) (locs.getD j defaultLocator) := by
  intro locs
  induction locs with
  | nil =>
    intro k j h
    simp at h
  | cons a t ih =>
    intro k j h
    cases j with
    | zero => rfl
    | succ j =>
      have hj : j < t.length := by
        simpa using h
      have harith : k + 1 + j = k + (j + 1) := by omega
      calc (processLoop env obj outdir k (a :: t)).getD (j + 1) defaultSliceResult
          = (processLoop env obj outdir (k + 1) t).getD j defaultSliceResult := rfl
        _ = processOne env obj outdir (k + 1 + j) (t.getD j defaultLocator) := ih (k + 1) j hj
        _ = processOne env obj outdir (k + (j + 1)) ((a :: t).getD (j + 1) defaultLocator) := by
            rw [harith, List.getD_cons_succ]

theorem processLoop_mem (env : Env) (obj outdir : String) :
    ∀ (locs : List Locator) (k : ℕ) (r : SliceResult),
      r ∈ processLoop env obj outdir k locs →
      ∃ (j : ℕ) (loc : Locator), r = processOne env obj outdir j loc := by
  intro locs
  induction locs with
  | nil =>
    intro k r h
    simp [processLoop] at h
  | cons a t ih =>
    intro k r h
    simp only [processLoop] at h
    rcases List.mem_cons.mp h with h | h
    · exact ⟨k, a, h⟩
    · exact ih (k + 1) r h

theorem batch_eval_envRenderOk :
    (process_locators_for_obj envRenderOk "cube.obj" [loc0] "out").2 =
      [{ id := "L", status := "success",
         image_path := some (joinPath "out" ("L" ++ ".png")), message := none }] :=
  rfl

/-- C1: `process_locators_for_obj` returns `overall_success = true` for
every mesh path and locator list; a mesh read failure during the loop is
recorded as a per-locator error entry; and the handler's status is always
200, 400 or 404, so its HTTP 500 batch-failure branch is never taken. -/
theorem batch_never_reports_critical_failure :
    (∀ (env : Env) (obj : String) (locs : List Locator) (outdir : String),
      (process_locators_for_obj env obj locs outdir).1 = true) ∧
    (∀ (env : Env) (obj outdir : String) (k : ℕ) (loc : Locator) (msg : String),
      env.readMesh obj = Except.error msg →
      (processOne env obj outdir k loc).status = "error") ∧
    (∀ (env : Env) (pathExists : String → Bool) (baseDir : String)
      (data : Option SliceRequest),
      (slice_model_endpoint env pathExists baseDir data).status = 200 ∨
      (slice_model_endpoint env pathExists baseDir data).status = 400 ∨
      (slice_model_endpoint env pathExists baseDir data).status = 404) := by
  refine ⟨?_, ?_, ?_⟩
  · intro env obj locs outdir
    rfl
  · intro env obj outdir k loc msg h
    unfold processOne create_slice_image_pyvista
    rw [h]
    rfl
  · intro env pathExists baseDir data
    rcases data with _ | ⟨op, ol⟩
    · right; left; rfl
    · rcases op with _ | objIn
      · rcases ol with _ | locs
        · right; left; rfl
        · right; left; rfl
      · rcases ol with _ | locs
        · right; left; rfl
        · unfold slice_model_endpoint
          dsimp only
          split_ifs with h1
          · right; left; rfl
          · cases hres : resolvePath pathExists baseDir objIn with
            | none => right; right; rfl
            | some actual => left; rfl

theorem batch_never_reports_critical_failure_witness :
    envReadFail.readMesh "cube.obj" = Except.error "read failure" ∧
    (processOne envReadFail "cube.obj" "out" 0 loc0).status = "error" :=
  ⟨rfl, batch_never_reports_critical_failure.2.1 envReadFail "cube.obj" "out" 0 loc0
    "read failure" rfl⟩

/-- C2: the batch produces exactly one result per input locator, in input
order; the entry at position `k` carries the locator's id (or the
generated fallback id fed by the k-th random draw); and every entry is
either a success with an image path or an error with a message. -/
theorem one_result_per_locator_in_order :
    ∀ (env : Env) (obj : String) (locs : List Locator) (outdir : String),
      (process_locators_for_obj env obj locs outdir).2.length = locs.length ∧
      (∀ k : ℕ, k < locs.length →
        ((process_locators_for_obj env obj locs outdir).2.getD k defaultSliceResult).id =
          ((locs.getD k defaultLocator).id).getD
            ("unknown_loc_" ++ toString (env.randInt k % 1000))) ∧
      (∀ r : SliceResult, r ∈ (process_locators_for_obj env obj locs outdir).2 →
        (r.status = "success" ∧ (r.image_path).isSome = true ∧ r.message = none) ∨
        (r.status = "error" ∧ (r.message).isSome = true ∧ r.image_path = none)) := by
  intro env obj locs outdir
  refine ⟨processLoop_length env obj outdir locs 0, ?_, ?_⟩
  · intro k hk
    have h := processLoop_getD env obj outdir locs 0 k hk
    rw [Nat.zero_add] at h
    show ((processLoop env obj outdir 0 locs).getD k defaultSliceResult).id = _
    rw [h, processOne_id]
  · intro r hr
    rcases processLoop_mem env obj outdir locs 0 r hr with ⟨j, loc, rfl⟩
    rcases processOne_cases env obj outdir j loc with ⟨lid, heq⟩ | ⟨lid, heq⟩
    · left
      rw [heq]
      exact ⟨rfl, rfl, rfl⟩
    · right
      rw [heq]
      exact ⟨rfl, rfl, rfl⟩

theorem one_result_per_locator_in_order_witness :
    (process_locators_for_obj envRenderOk "cube.obj" [loc0] "out").2.length = 1 ∧
    ((process_locators_for_obj envRenderOk "cube.obj" [loc0] "out").2.getD 0
        defaultSliceResult).id = "L" ∧
    ((({ id := "L", status := "success", image_path := some (joinPath "out" ("L" ++ ".png")), message := none } : SliceResult).status = "success" ∧
      (some (joinPath "out" ("L" ++ ".png"))).isSome = true ∧
      (none : Option String) = none) ∨
    (({ id := "L", status := "success", image_path := some (joinPath "out" ("L" ++ ".png")), message := none } : SliceResult).status = "error" ∧
      (none : Option String).isSome = true ∧
      some (joinPath "out" ("L" ++ ".png")) = none)) := by
  have h := one_result_per_locator_in_order envRenderOk "cube.obj" [loc0] "out"
  refine ⟨h.1, h.2.1 0 (by norm_num), ?_⟩
  exact h.2.2 _ (by rw [batch_eval_envRenderOk]; exact List.mem_singleton.mpr rfl)

/-- C3: when the mesh loads with points and the slice at a locator's plane
has zero points, `create_slice_image_pyvista` skips rendering and returns
true with no file written, and the batch records a success entry for that
locator. -/
theorem empty_cross_section_is_success (env : Env) (obj outdir lid : String)
    (mesh : Mesh) (loc : Locator)
    (h1 : env.readMesh obj = Except.ok mesh) (h2 : mesh.n_points ≠ 0)
    (h3 : ∀ nrm org : Vec3, env.slice mesh nrm org = Except.ok 0)
    (h4 : loc.id = some lid) :
    (∀ (org nrm : Vec3) (radius : ℝ),
      create_slice_image_pyvista env obj org nrm lid radius outdir = (true, none)) ∧
    (process_locators_for_obj env obj [loc] outdir).2 =
      [{ id := lid, status := "success",
         image_path := some (joinPath outdir (lid ++ ".png")), message := none }] := by
  have hc : ∀ (org nrm : Vec3) (radius : ℝ),
      create_slice_image_pyvista env obj org nrm lid radius outdir = (true, none) := by
    intro org nrm radius
    unfold create_slice_image_pyvista
    rw [h1]
    dsimp only
    rw [if_neg h2, h3 nrm org]
    rfl
  have hone : processOne env obj outdir 0 loc =
      { id := lid, status := "success",
        image_path := some (joinPath outdir (lid ++ ".png")), message := none } := by
    unfold processOne
    dsimp only
    rw [h4]
    simp only [Option.getD_some]
    rw [hc]
    rfl
  refine ⟨hc, ?_⟩
  show processLoop env obj outdir 0 [loc] = _
  simp only [processLoop]
  rw [hone]

theorem empty_cross_section_is_success_witness :
    create_slice_image_pyvista envEmptySlice "cube.obj" ⟨0, 0, 0⟩ ⟨0, 0, 1⟩ "L" 200 "out" =
      (true, none) ∧
    (process_locators_for_obj envEmptySlice "cube.obj" [loc0] "out").2 =
      [{ id := "L", status := "success",
         image_path := some (joinPath "out" ("L" ++ ".png")), message := none }] := by
  have h := empty_cross_section_is_success envEmptySlice "cube.obj" "out" "L" ⟨8⟩ loc0
    rfl (by decide) (fun _ _ => rfl) rfl
  exact ⟨h.1 ⟨0, 0, 0⟩ ⟨0, 0, 1⟩ 200, h.2⟩

theorem resolvePath_eq_none_of_unresolvable (pathExists : String → Bool)
    (baseDir objIn : String) (h : unresolvable pathExists baseDir objIn) :
    resolvePath pathExists baseDir objIn = none := by
  unfold resolvePath
  rcases h with ⟨habs, hex⟩ | ⟨habs, hex1, hex2⟩
  · simp [habs, hex]
  · simp [habs, hex1, hex2]

/-- C8: a `/slice` request whose `obj_file_path` resolves under none of
the three search rules gets HTTP 404, the output image directory is not
created, and no locator is processed. -/
theorem unresolvable_path_yields_404 (env : Env) (pathExists : String → Bool)
    (baseDir : String) (d : SliceRequest) (objIn : String) (locs : List Locator)
    (h1 : d.obj_file_path = some objIn) (h2 : d.locators = some locs)
    (h3 : objIn ≠ "") (h4 : locs ≠ [])
    (h5 : unresolvable pathExists baseDir objIn) :
    slice_model_endpoint env pathExists baseDir (some d) = ⟨404, false, none⟩ := by
  rcases d with ⟨op, ol⟩
  dsimp at h1 h2
  subst h1
  subst h2
  have hcond : ¬ (objIn = "" ∨ locs.isEmpty = true) := by
    rintro (hc | hc)
    · exact h3 hc
    · exact h4 (List.isEmpty_iff.mp hc)
  unfold slice_model_endpoint
  dsimp only
  rw [if_neg hcond, resolvePath_eq_none_of_unresolvable pathExists baseDir objIn h5]

theorem unresolvable_path_yields_404_witness :
    slice_model_endpoint envRenderOk noPath "/base"
      (some ⟨some "model.obj", some [loc0]⟩) = ⟨404, false, none⟩ := by
  refine unresolvable_path_yields_404 envRenderOk noPath "/base" _ "model.obj" [loc0]
    rfl rfl (by decide) (by simp) ?_
  exact Or.inr ⟨by decide, rfl, rfl⟩

/-- C9: every success entry reports the image path `output_dir/<id>.png`,
and in the empty-cross-section case `create_slice_image_pyvista` returns
true while writing no file, so a success status does not guarantee a file
exists at the reported path. -/
theorem success_entries_follow_image_path_contract :
    (∀ (env : Env) (obj : String) (locs : List Locator) (outdir : String)
      (r : SliceResult),
      r ∈ (process_locators_for_obj env obj locs outdir).2 → r.status = "success" →
      r.image_path = some (joinPath outdir (r.id ++ ".png"))) ∧
    (∀ (env : Env) (obj : String) (org nrm : Vec3) (lid : String) (radius : ℝ)
      (outdir : String) (mesh : Mesh),
      env.readMesh obj = Except.ok mesh → mesh.n_points ≠ 0 →
      env.slice mesh nrm org = Except.ok 0 →
      create_slice_image_pyvista env obj org nrm lid radius outdir = (true, none)) := by
  constructor
  · intro env obj locs outdir r hr hs
    rcases processLoop_mem env obj outdir locs 0 r hr with ⟨j, loc, rfl⟩
    rcases processOne_cases env obj outdir j loc with ⟨lid, heq⟩ | ⟨lid, heq⟩
    · rw [heq]
    · rw [heq] at hs
      have hbad : ("error" : String) = "success" := hs
      exact absurd hbad (by decide)
  · intro env obj org nrm lid radius outdir mesh h1 h2 h3
    unfold create_slice_image_pyvista
    rw [h1]
    dsimp only
    rw [if_neg h2, h3]
    rfl

theorem success_entries_follow_image_path_contract_witness :
    ({ id := "L", status := "success", image_path := some (joinPath "out" ("L" ++ ".png")), message := none } : SliceResult).image_path =
      some (joinPath "out" ("L" ++ ".png")) ∧
    create_slice_image_pyvista envEmptySlice "cube.obj" ⟨0, 0, 1⟩ ⟨1, 0, 0⟩ "M" 200 "out" =
      (true, none) := by
  constructor
  · exact success_entries_follow_image_path_contract.1 envRenderOk "cube.obj" [loc0] "out" _
      (by rw [batch_eval_envRenderOk]; exact List.mem_singleton.mpr rfl) rfl
  · exact success_entries_follow_image_path_contract.2 envEmptySlice "cube.obj" ⟨0, 0, 1⟩
      ⟨1, 0, 0⟩ "M" 200 "out" ⟨8⟩ rfl (by decide) rfl

/-- C10: a request carrying an empty `locators` list or an empty
`obj_file_path` string is rejected with HTTP 400 with no directory
creation and no locator processing, exactly as when the field is absent. -/
theorem empty_fields_rejected_like_missing :
    (∀ (env : Env) (pathExists : String → Bool) (baseDir : String) (d : SliceRequest),
      d.obj_file_path = some "" ∨ d.locators = some ([] : List Locator) →
      slice_model_endpoint env pathExists baseDir (some d) = ⟨400, false, none⟩) ∧
    (∀ (env : Env) (pathExists : String → Bool) (baseDir : String) (d : SliceRequest),
      d.obj_file_path = none ∨ d.locators = none →
      slice_model_endpoint env pathExists baseDir (some d) = ⟨400, false, none⟩) := by
  constructor
  · rintro env pathExists baseDir ⟨op, ol⟩ (h | h) <;> dsimp at h <;> subst h
    · rcases ol with _ | locs
      · rfl
      · unfold slice_model_endpoint
        dsimp only
        rw [if_pos (Or.inl rfl)]
    · rcases op with _ | s
      · rfl
      · unfold slice_model_endpoint
        dsimp only
        rw [if_pos (show s = "" ∨ ([] : List Locator).isEmpty = true from Or.inr rfl)]
  · rintro env pathExists baseDir ⟨op, ol⟩ (h | h) <;> dsimp at h <;> subst h
    · rfl
    · rcases op with _ | s
      · rfl
      · rfl

theorem empty_fields_rejected_like_missing_witness :
    slice_model_endpoint envRenderOk noPath "/base"
      (some ⟨some "", some [loc0]⟩) = ⟨400, false, none⟩ ∧
    slice_model_endpoint envRenderOk noPath "/base"
      (some ⟨some "cube.obj", none⟩) = ⟨400, false, none⟩ :=
  ⟨empty_fields_rejected_like_missing.1 envRenderOk noPath "/base" _ (Or.inl rfl),
   empty_fields_rejected_like_missing.2 envRenderOk noPath "/base" _ (Or.inr rfl)⟩
